import Mathlib

/-!
Shallow embedding of the file-processing workflow of `20250423_0002`
(`refactoring/src/processor.py`, `workflow.py`, `database.py`,
`file_manager.py`, `report.py`) and of the reference implementation
`legacy_code.py`.  Counters are `Nat`; Python float arithmetic on the
statistics (the `0.2` threshold, `errors / records`) is modelled over `ℚ`,
which is exact for the integer counters involved.
-/

namespace DataBatch

/-- `Stats` from `processor.py`: the three per-file counters, each a
`Counter` (an `int` subclass) starting at zero. -/
structure Stats where
  records : Nat
  success : Nat
  errors : Nat
  deriving DecidableEq, Repr

/-- The freshly initialised statistics, `Stats()` / the legacy dict
`{"records": 0, "success": 0, "errors": 0}`. -/
def Stats.init : Stats := ⟨0, 0, 0⟩

/-- `Stats.increment_records`. -/
def Stats.incRecords (s : Stats) : Stats := { s with records := s.records + 1 }

/-- `Stats.increment_success`. -/
def Stats.incSuccess (s : Stats) : Stats := { s with success := s.success + 1 }

/-- `Stats.increment_errors`. -/
def Stats.incErrors (s : Stats) : Stats := { s with errors := s.errors + 1 }

/-- `Stats.error_rate`: `0.0` when `records == 0`, else `errors / records`
(Python true division, modelled exactly in `ℚ`). -/
def Stats.errorRate (s : Stats) : ℚ :=
  if s.records = 0 then 0 else (s.errors : ℚ) / (s.records : ℚ)

/-- The abort test of `on_error_process_listener` in `processor.py`:
`content.stats.error_rate > 0.2`, the condition under which the listener
raises `RuntimeError`. -/
def refactoredAbortCond (s : Stats) : Bool :=
  decide ((0.2 : ℚ) < s.errorRate)

/-- The abort test of the legacy record loop (`legacy_code.py`):
`stats["errors"] > stats["records"] * 0.2`. -/
def legacyAbortCond (s : Stats) : Bool :=
  decide ((s.records : ℚ) * 0.2 < (s.errors : ℚ))

/-! ### Python-valued record fields and the analysis transform

`csv.DictReader` yields string fields; `InputData(**row)` stores them
unconverted (the dataclass does not coerce its annotated `float` fields),
so a field is either a number or a string.  The arithmetic inside
`DataProcessor._calculate_analysis_result` follows Python semantics on
such values, and its `try/except` turns any raised exception into the
`"ERROR"` marker. -/

/-- A Python value appearing in a record field: a number or a string. -/
inductive PyVal where
  | num (q : ℚ)
  | str (s : String)
  deriving DecidableEq, Repr

/-- The Python exceptions the embedding distinguishes. -/
inductive PyErr where
  | typeError
  deriving DecidableEq, Repr

/-- `v * q` for a non-integral float literal `q` (`1.5`, `0.5`):
`str * float` raises `TypeError`. -/
def pyMulFloat : PyVal → ℚ → Except PyErr PyVal
  | .num n, q => .ok (.num (n * q))
  | .str _, _ => .error .typeError

/-- `v * k` for an `int` literal `k`: on a string this is Python
sequence repetition, not an error. -/
def pyMulInt : PyVal → Nat → Except PyErr PyVal
  | .num n, k => .ok (.num (n * (k : ℚ)))
  | .str s, k => .ok (.str (String.join (List.replicate k s)))

/-- `a + b`: numbers add, strings concatenate, mixing raises `TypeError`. -/
def pyAdd : PyVal → PyVal → Except PyErr PyVal
  | .num a, .num b => .ok (.num (a + b))
  | .str a, .str b => .ok (.str (a ++ b))
  | _, _ => .error .typeError

/-- `v / k` for an `int` literal `k`: `str / int` raises `TypeError`. -/
def pyDivInt : PyVal → Nat → Except PyErr PyVal
  | .num n, k => .ok (.num (n / (k : ℚ)))
  | .str _, _ => .error .typeError

/-- Python `round(x, 2)`.  The claims under check do not depend on the
tie-breaking rule, so `Mathlib.round` stands in for round-half-even. -/
def round2 (q : ℚ) : ℚ := (round (q * 100) : ℤ) / 100

/-- `round(result, 2)` applied to the computed value: rounding a string
raises `TypeError`. -/
def pyRound2 : PyVal → Except PyErr PyVal
  | .num n => .ok (.num (round2 n))
  | .str _ => .error .typeError

/-- `InputData` from `processor.py` (frozen dataclass); the field values
are whatever `InputData(**row)` received. -/
structure InputData where
  value1 : PyVal
  value2 : PyVal
  category : String
  deriving DecidableEq, Repr

/-- The category dispatch inside `_calculate_analysis_result`, before the
final `round(result, 2)`. -/
def calcExpr (d : InputData) : Except PyErr PyVal :=
  if d.category = "a" then
    match pyMulFloat d.value1 1.5 with
    | .error e => .error e
    | .ok a =>
      match pyMulFloat d.value2 0.5 with
      | .error e => .error e
      | .ok b => pyAdd a b
  else if d.category = "b" then
    match pyMulInt d.value2 2 with
    | .error e => .error e
    | .ok b => pyAdd d.value1 b
  else if d.category = "c" then
    match pyAdd d.value1 d.value2 with
    | .error e => .error e
    | .ok t =>
      match pyDivInt t 2 with
      | .error e => .error e
      | .ok h => pyMulInt h 3
  else
    pyAdd d.value1 d.value2

/-- `DataProcessor._calculate_analysis_result`: the category dispatch and
`round(result, 2)` inside `try`, any exception mapped to `"ERROR"`. -/
def calculate_analysis_result (d : InputData) : PyVal :=
  match calcExpr d with
  | .ok r =>
    match pyRound2 r with
    | .ok v => v
    | .error _ => .str "ERROR"
  | .error _ => .str "ERROR"

/-! ### The per-record event context and the record loop -/

/-- How the body of one iteration of the `workflow.py` record loop goes:
`badRow` — `InputData(**row)` raises (wrong columns); `randomFail` — the
injected 5% `ValueError` inside `DataProcessor.process`; `data d` — the
row builds `InputData d`, the random draw passes, and `process` returns a
`Result` carrying `calculate_analysis_result d`. -/
inductive RecEvent where
  | badRow
  | randomFail
  | data (d : InputData)
  deriving DecidableEq, Repr

/-- The value the body writes to the output file, or `none` when the body
raises.  `calculate_analysis_result` is total, so a `data` row always
writes. -/
def recordBody : RecEvent → Option PyVal
  | .badRow => none
  | .randomFail => none
  | .data d => some (calculate_analysis_result d)

/-- Why the record loop stops at a record: `threshold` — the
`RuntimeError` raised by `on_error_process_listener` (the abort signal);
`reraised` — the original record exception re-raised by
`process_data_event_context` after the listener returned normally. -/
inductive StopKind where
  | threshold
  | reraised
  deriving DecidableEq, Repr

/-- The outcome of one record under `process_data_event_context`:
the statistics afterwards, whether (and which) exception escaped the
`with` block, and what was written to the output file. -/
structure RecordStep where
  stats : Stats
  stop : Option StopKind
  written : Option PyVal
  deriving DecidableEq, Repr

/-- One record of the `workflow.py` loop: `on_before_process` increments
`records`; on a normal body `on_after_process` increments `success`; on a
raising body `on_error_process_listener` increments `errors` and raises
`RuntimeError` when `error_rate > 0.2`, else the context manager
re-raises the original exception — either way an exception escapes the
`with` block. -/
def processRecord (s : Stats) (e : RecEvent) : RecordStep :=
  match recordBody e with
  | some v => ⟨s.incRecords.incSuccess, none, some v⟩
  | none =>
    if refactoredAbortCond s.incRecords.incErrors then
      ⟨s.incRecords.incErrors, some .threshold, none⟩
    else
      ⟨s.incRecords.incErrors, some .reraised, none⟩

/-- The `for row in reader` loop of `ProcessDataWorkflow.process_data`:
runs records until the exception of some record escapes the `with` block (which
terminates the loop) or the rows are exhausted. -/
def processRows (s : Stats) : List RecEvent → Stats × Option StopKind
  | [] => (s, none)
  | e :: rest =>
    match processRecord s e with
    | ⟨s1, none, _⟩ => processRows s1 rest
    | ⟨s1, some k, _⟩ => (s1, some k)

/-- Where a finished input file ends up. -/
inductive FileDest where
  | archived
  | quarantined
  deriving DecidableEq, Repr

/-- `ProcessDataWorkflow.process_data` for one file: `ioFail` models an
exception while opening the CSV streams, before any record is read.  A
loop that returns without a stop leads to `move_to_archive`; any escaped
exception is caught by the outer `try` and leads to `move_to_error`. -/
def process_data (ioFail : Bool) (evs : List RecEvent) : Stats × FileDest :=
  if ioFail then (Stats.init, .quarantined)
  else
    match processRows Stats.init evs with
    | (s, none) => (s, .archived)
    | (s, some _) => (s, .quarantined)

/-- The legacy record loop of `legacy_code.py` (`process_data_file`):
per record `records += 1`; a failing record does `errors += 1` and aborts
(raises `RuntimeError`) only when `errors > records * 0.2`, otherwise the
loop continues; a succeeding record does `success += 1`.  Returns the
final statistics and whether the abort `RuntimeError` was raised. -/
def legacyProcessRows (s : Stats) : List Bool → Stats × Bool
  | [] => (s, false)
  | true :: rest => legacyProcessRows s.incRecords.incSuccess rest
  | false :: rest =>
    if legacyAbortCond s.incRecords.incErrors then (s.incRecords.incErrors, true)
    else legacyProcessRows s.incRecords.incErrors rest

/-! ### The run recorder (`database.py`) and the summary -/

/-- One stored row of the `results` table, as `insert_result` writes it.
The `filename` and `timestamp` columns enter no aggregate and are
omitted. -/
structure RunRecord where
  records : Nat
  success : Nat
  errors : Nat
  process_time : ℚ

/-- The single row produced by the aggregate query of `get_summary`
(`SELECT COUNT(*), SUM(records), SUM(success), SUM(errors),
AVG(process_time) FROM results`): SQL `SUM` and `AVG` are `NULL`
(here `none`) when the table holds no rows. -/
def aggregateRow (rows : List RunRecord) :
    Nat × Option Nat × Option Nat × Option Nat × Option ℚ :=
  if rows.isEmpty then (0, none, none, none, none)
  else
    (rows.length,
     some (rows.map RunRecord.records).sum,
     some (rows.map RunRecord.success).sum,
     some (rows.map RunRecord.errors).sum,
     some ((rows.map RunRecord.process_time).sum / (rows.length : ℚ)))

/-- The frozen `Summary` dataclass of `database.py`.  `generated_at` is
the `datetime.now()` wall-clock value, modelled as a numeric timestamp. -/
structure Summary where
  total_files : Nat
  total_records : Nat
  successful_records : Nat
  error_records : Nat
  average_process_time : ℚ
  generated_at : ℚ

/-- `Summary.success_rate`: `0.0` when `total_records == 0`, else
`successful_records / total_records * 100`. -/
def Summary.success_rate (s : Summary) : ℚ :=
  if s.total_records = 0 then 0
  else (s.successful_records : ℚ) / (s.total_records : ℚ) * 100

/-- `Summary.create`: the `x if x else 0` coalescing of the
possibly-`NULL` aggregates, with `generated_at = datetime.now()` taken
as the `now` argument. -/
def Summary.create (now : ℚ) (total_files : Nat)
    (total_records successful_records error_records : Option Nat)
    (average_process_time : Option ℚ) : Summary :=
  { total_files := total_files
    total_records := total_records.getD 0
    successful_records := successful_records.getD 0
    error_records := error_records.getD 0
    average_process_time := average_process_time.getD 0
    generated_at := now }

/-- A positional argument at the Python call boundary of
`Summary.create(*...)`: either one scalar field, or one whole fetched
row (what `*cursor.fetchall()` actually supplies). -/
inductive PyArg where
  | nat (n : Nat)
  | optNat (n : Option Nat)
  | optRat (q : Option ℚ)
  | row (r : Nat × Option Nat × Option Nat × Option Nat × Option ℚ)

/-- `Summary.create(*args)` as a Python call: it runs only when given
exactly the five positional arguments of its signature; any other
argument list — in particular a single row tuple — raises `TypeError`
before the body executes. -/
def Summary.create_call (now : ℚ) : List PyArg → Except PyErr Summary
  | [.nat tf, .optNat tr, .optNat sr, .optNat er, .optRat apt] =>
    .ok (Summary.create now tf tr sr er apt)
  | _ => .error .typeError

/-- `cursor.fetchall()` on the aggregate query: the list holding the one
aggregate row. -/
def fetchall (rows : List RunRecord) : List PyArg :=
  [.row (aggregateRow rows)]

/-- `DatabaseManager.get_summary`: `Summary.create(*cursor.fetchall())`.
Star-unpacking the fetched list passes one argument per fetched row. -/
def get_summary (now : ℚ) (rows : List RunRecord) : Except PyErr Summary :=
  Summary.create_call now (fetchall rows)

/-! ### File routing effects (`file_manager.py`, `workflow.py`,
`legacy_code.py`) -/

/-- Presence on disk of the four artefacts of one input file while it is
being routed: the file in the input directory, its half-written
`processed_` output, and its copies in the archive and error
directories. -/
structure FsState where
  inputPresent : Bool
  outputPresent : Bool
  archivePresent : Bool
  errorPresent : Bool
  deriving DecidableEq, Repr

/-- `FileManager.move_to_error`: a bare `input_file.rename(error_path)`,
touching nothing else. -/
def move_to_error (fs : FsState) : FsState :=
  { fs with inputPresent := false, errorPresent := true }

/-- `FileManager.move_to_archive`: `input_file.rename(archive_path)`. -/
def move_to_archive (fs : FsState) : FsState :=
  { fs with inputPresent := false, archivePresent := true }

/-- The `except` branch of the refactored
`ProcessDataWorkflow.process_data`: it only calls `move_to_error`. -/
def refactoredFailureRoute (fs : FsState) : FsState :=
  move_to_error fs

/-- The `except` branch of the legacy `process_data_file`: delete the
half-written output if it exists, then move the input to the error
directory. -/
def legacyFailureRoute (fs : FsState) : FsState :=
  move_to_error { fs with outputPresent := false }

/-- A record whose `InputData` builds fine and whose transform succeeds:
used as the "good record" of the concrete example runs. -/
def exampleData : InputData := ⟨.num 1, .num 1, "x"⟩

/-! ### Helper lemmas -/

/-- The legacy abort test over the integer counters:
`errors > records * 0.2` holds exactly when `records < 5 * errors`. -/
theorem legacyAbortCond_eq_nat (s : Stats) :
    legacyAbortCond s = decide (s.records < 5 * s.errors) := by
  unfold legacyAbortCond
  rw [decide_eq_decide]
  rw [show (0.2 : ℚ) = 1/5 by norm_num, mul_one_div,
    div_lt_iff₀ (by norm_num : (0:ℚ) < 5)]
  rw [show ((s.errors : ℚ) * 5) = ((5 * s.errors : ℕ) : ℚ) by push_cast; ring]
  exact Nat.cast_lt

/-- The refactored abort test over the integer counters:
`error_rate > 0.2` holds exactly when `records` is positive and
`records < 5 * errors`. -/
theorem refactoredAbortCond_eq_nat (s : Stats) :
    refactoredAbortCond s = decide (0 < s.records ∧ s.records < 5 * s.errors) := by
  unfold refactoredAbortCond Stats.errorRate
  rcases Nat.eq_zero_or_pos s.records with h | h
  · simp [h]
    norm_num
  · rw [if_neg (Nat.pos_iff_ne_zero.mp h), decide_eq_decide]
    rw [show (0.2 : ℚ) = 1/5 by norm_num]
    rw [lt_div_iff₀ (by exact_mod_cast h : (0:ℚ) < (s.records : ℚ)),
      one_div_mul_eq_div, div_lt_iff₀ (by norm_num : (0:ℚ) < 5)]
    rw [show ((s.errors : ℚ) * 5) = ((5 * s.errors : ℕ) : ℚ) by push_cast; ring]
    rw [Nat.cast_lt]
    exact ⟨fun hh => ⟨h, hh⟩, fun hh => hh.2⟩

/-- `errors <= records` bounds the error rate by one. -/
theorem errorRate_le_one (s : Stats) (h : s.errors ≤ s.records) :
    s.errorRate ≤ 1 := by
  unfold Stats.errorRate
  split
  · norm_num
  · next hne =>
    rw [div_le_one (by exact_mod_cast Nat.pos_of_ne_zero hne)]
    exact_mod_cast h

/-- The record loop preserves `success + errors <= records`. -/
theorem processRows_counter_le (evs : List RecEvent) (s : Stats)
    (h : s.success + s.errors ≤ s.records) :
    (processRows s evs).1.success + (processRows s evs).1.errors ≤
      (processRows s evs).1.records := by
  induction evs generalizing s with
  | nil => simpa [processRows] using h
  | cons e rest ih =>
    cases e with
    | badRow =>
      cases hc : refactoredAbortCond s.incRecords.incErrors <;>
        simp only [processRows, processRecord, recordBody, hc, Bool.false_eq_true,
          if_false, if_true] <;>
        simp [Stats.incRecords, Stats.incErrors] <;> omega
    | randomFail =>
      cases hc : refactoredAbortCond s.incRecords.incErrors <;>
        simp only [processRows, processRecord, recordBody, hc, Bool.false_eq_true,
          if_false, if_true] <;>
        simp [Stats.incRecords, Stats.incErrors] <;> omega
    | data d =>
      simp only [processRows, processRecord, recordBody]
      exact ih _ (by simp [Stats.incRecords, Stats.incSuccess]; omega)

/-! ### The claims -/

/-- C1: when a record fails, `on_error_process_listener` first increments
`errors`; the state after the failure is `incErrors (incRecords s)` (the
before-record listener had already incremented `records`), and the abort
signal — the `RuntimeError` modelled as `StopKind.threshold` — is raised
exactly when the resulting `error_rate` exceeds `0.2`, for every stats
state reachable in the record loop, with no minimum sample size gating
the check. -/
theorem abort_signal_iff_error_rate_exceeds_threshold
    (evs : List RecEvent) (s : Stats)
    (_hreach : processRows Stats.init evs = (s, none)) :
    (processRecord s .randomFail).stats = s.incRecords.incErrors ∧
    ((processRecord s .randomFail).stop = some StopKind.threshold ↔
      (0.2 : ℚ) < (s.incRecords.incErrors).errorRate) := by
  unfold processRecord recordBody
  by_cases h : refactoredAbortCond s.incRecords.incErrors = true
  · simp [h]
    unfold refactoredAbortCond at h
    simpa using h
  · simp [h]
    unfold refactoredAbortCond at h
    simpa using h

/-- C1 (witness): the reachability hypothesis discharged at the initial
state, where a first-record failure yields `error_rate = 1 > 0.2`. -/
theorem abort_signal_iff_error_rate_exceeds_threshold_witness :
    (processRecord Stats.init .randomFail).stats = Stats.init.incRecords.incErrors ∧
    ((processRecord Stats.init .randomFail).stop = some StopKind.threshold ↔
      (0.2 : ℚ) < (Stats.init.incRecords.incErrors).errorRate) :=
  abort_signal_iff_error_rate_exceeds_threshold [] Stats.init rfl

/-- C2 (counterexample): on a 5-record file whose records 1 and 2 fail
the transform, the record loop stops already at record 1 with final
statistics `{records 1, success 0, errors 1}`, not the claimed
`{records 2, success 0, errors 2}`. -/
theorem five_record_example_claimed_stats_wrong :
    (processRows Stats.init
      [.randomFail, .randomFail, .data exampleData, .data exampleData,
       .data exampleData]).1 = ⟨1, 0, 1⟩ ∧
    (⟨1, 0, 1⟩ : Stats) ≠ (⟨2, 0, 2⟩ : Stats) := by
  constructor
  · simp [processRows, processRecord, recordBody, refactoredAbortCond_eq_nat,
      Stats.init, Stats.incRecords, Stats.incErrors, exampleData]
  · decide

/-- C2 (amended): on a 5-record file whose records 1 and 2 fail the
transform, the run aborts after record 1 — the first failure already
gives `errors = 1, records = 1, error_rate = 1 > 0.2`, raising the
threshold signal — the file statistics finalize at
`{records 1, success 0, errors 1}`, the file is quarantined, and records
2 through 5 are never transformed; the legacy loop behaves the same on
this input. -/
theorem five_record_example_actual_run :
    process_data false
      [.randomFail, .randomFail, .data exampleData, .data exampleData,
       .data exampleData] = (⟨1, 0, 1⟩, .quarantined) ∧
    (processRows Stats.init
      [.randomFail, .randomFail, .data exampleData, .data exampleData,
       .data exampleData]).2 = some StopKind.threshold ∧
    legacyProcessRows Stats.init [false, false, true, true, true]
      = (⟨1, 0, 1⟩, true) := by
  refine ⟨?_, ?_, ?_⟩
  · simp [process_data, processRows, processRecord, recordBody,
      refactoredAbortCond_eq_nat, Stats.init, Stats.incRecords, Stats.incErrors,
      exampleData]
  · simp [processRows, processRecord, recordBody, refactoredAbortCond_eq_nat,
      Stats.init, Stats.incRecords, Stats.incErrors, exampleData]
  · simp [legacyProcessRows, legacyAbortCond_eq_nat, Stats.init,
      Stats.incRecords, Stats.incErrors]

/-- C3: on a record with numeric fields `v1`, `v2` and category `c`, the
transform returns, rounded to 2 decimals, `v1*1.5 + v2*0.5` for category
`"a"`, `v1 + v2*2` for `"b"`, `(v1 + v2)/2*3` for `"c"`, and `v1 + v2`
for any other category. -/
theorem calculate_analysis_result_numeric_fields (v1 v2 : ℚ) (c : String) :
    calculate_analysis_result ⟨.num v1, .num v2, c⟩ =
      .num (round2 (if c = "a" then v1 * 1.5 + v2 * 0.5
        else if c = "b" then v1 + v2 * 2
        else if c = "c" then (v1 + v2) / 2 * 3
        else v1 + v2)) := by
  unfold calculate_analysis_result calcExpr
  split_ifs <;> simp [pyMulFloat, pyMulInt, pyAdd, pyDivInt, pyRound2]

/-- C4: a processed file ends in the archive exactly when no stream
failure occurred and the record loop completed without any escaped
exception (threshold signal or re-raised record error), and in the
quarantine directory exactly otherwise — one destination, never both,
never neither. -/
theorem file_archived_iff_completed_without_stop
    (ioFail : Bool) (evs : List RecEvent) :
    ((process_data ioFail evs).2 = .archived ↔
      (ioFail = false ∧ (processRows Stats.init evs).2 = none)) ∧
    ((process_data ioFail evs).2 = .quarantined ↔
      ¬(ioFail = false ∧ (processRows Stats.init evs).2 = none)) := by
  cases ioFail
  · rcases h : processRows Stats.init evs with ⟨s, stop⟩
    cases stop <;> simp [process_data, h]
  · simp [process_data]

/-- C5: for every run of the record loop the final statistics satisfy
`success + errors <= records` and `errors <= records`, the error rate
never exceeds 1, and the same bound holds at the mid-record state right
after the before-record increment; since the event list is arbitrary,
every intermediate state of a run (the final state of some prefix) is
covered. -/
theorem stats_counters_invariant (evs : List RecEvent) :
    ((processRows Stats.init evs).1.success + (processRows Stats.init evs).1.errors ≤
      (processRows Stats.init evs).1.records) ∧
    ((processRows Stats.init evs).1.errors ≤ (processRows Stats.init evs).1.records) ∧
    ((processRows Stats.init evs).1.errorRate ≤ 1) ∧
    (((processRows Stats.init evs).1.incRecords).success +
        ((processRows Stats.init evs).1.incRecords).errors ≤
      ((processRows Stats.init evs).1.incRecords).records) := by
  have h1 := processRows_counter_le evs Stats.init (by simp [Stats.init])
  refine ⟨h1, by omega, errorRate_le_one _ (by omega), ?_⟩
  simp [Stats.incRecords]
  omega

/-- C6: on an empty recorder, `get_summary` does not return the all-zero
summary the claim describes — `Summary.create(*cursor.fetchall())`
passes the single aggregate row as the one and only positional argument
and raises `TypeError`; the `Summary.create` / `success_rate` semantics
themselves, applied to the empty aggregate row as the legacy code does,
would give the claimed zeros. -/
theorem get_summary_empty_recorder_behavior (now : ℚ) :
    get_summary now [] = .error .typeError ∧
    aggregateRow [] = (0, none, none, none, none) ∧
    (Summary.create now 0 none none none none).total_records = 0 ∧
    (Summary.create now 0 none none none none).successful_records = 0 ∧
    (Summary.create now 0 none none none none).error_records = 0 ∧
    (Summary.create now 0 none none none none).average_process_time = 0 ∧
    (Summary.create now 0 none none none none).success_rate = 0 := by
  refine ⟨rfl, rfl, rfl, rfl, rfl, rfl, ?_⟩
  simp [Summary.success_rate, Summary.create]

/-- C7: the summary reporter never yields a `Summary` to compare across
two calls — every `get_summary` call, on every recorder state and at
every call time, raises `TypeError` from the
`Summary.create(*cursor.fetchall())` argument mismatch. -/
theorem get_summary_never_yields_summary (now later : ℚ) (rows : List RunRecord) :
    get_summary now rows = .error .typeError ∧
    get_summary later rows = .error .typeError :=
  ⟨rfl, rfl⟩

/-- C8: routing a failed file whose half-written output exists, the
refactored workflow only moves the input to the error directory and
leaves the output file in place, while the legacy code path — the
behavior the claim states — deletes the output before moving the
input. -/
theorem failure_route_output_file_divergence :
    refactoredFailureRoute ⟨true, true, false, false⟩ = ⟨false, true, false, true⟩ ∧
    legacyFailureRoute ⟨true, true, false, false⟩ = ⟨false, false, false, true⟩ :=
  ⟨rfl, rfl⟩

/-- C9 (counterexample): on the outcome sequence ok, ok, ok, ok, fail,
fail the legacy loop keeps reading past the below-threshold failure at
record 5 and raises the abort error at record 6, while the refactored
loop stops at record 5 by re-raising the record error, without ever
raising the abort signal — so the two implementations do not abort on
the same record-failure sequences. -/
theorem tracker_sequence_divergence :
    legacyProcessRows Stats.init [true, true, true, true, false, false]
      = (⟨6, 4, 2⟩, true) ∧
    processRows Stats.init
      [.data exampleData, .data exampleData, .data exampleData, .data exampleData,
       .randomFail, .randomFail]
      = (⟨5, 4, 1⟩, some .reraised) := by
  constructor
  · simp [legacyProcessRows, legacyAbortCond_eq_nat, Stats.init, Stats.incRecords,
      Stats.incSuccess, Stats.incErrors]
  · simp [processRows, processRecord, recordBody, refactoredAbortCond_eq_nat,
      Stats.init, Stats.incRecords, Stats.incSuccess, Stats.incErrors, exampleData]

/-- C9 (amended): for every stats state with `records >= 1` the legacy
condition `errors > records * 0.2` holds exactly when the refactored
condition `errors / records > 0.2` holds, so on the same stats state the
two trackers make the same abort decision; the surrounding loops differ
(the refactored loop stops at the first record failure), so whole runs
need not abort on the same record-failure sequences. -/
theorem abort_condition_state_equivalence (s : Stats) (h : 1 ≤ s.records) :
    legacyAbortCond s = true ↔ refactoredAbortCond s = true := by
  rw [legacyAbortCond_eq_nat, refactoredAbortCond_eq_nat]
  simp only [decide_eq_true_eq]
  omega

/-- C9 (witness): the equivalence instantiated at the state
`{records 1, success 0, errors 1}`. -/
theorem abort_condition_state_equivalence_witness :
    1 ≤ (⟨1, 0, 1⟩ : Stats).records ∧
    (legacyAbortCond ⟨1, 0, 1⟩ = true ↔ refactoredAbortCond ⟨1, 0, 1⟩ = true) :=
  ⟨by decide, abort_condition_state_equivalence ⟨1, 0, 1⟩ (by decide)⟩

/-- C10: when both numeric fields arrive as strings (as `csv.DictReader`
hands them to `InputData` unconverted), every category branch of the
analysis formula raises, `_calculate_analysis_result` returns the string
`"ERROR"` inside a normally returned result, and the record is counted
as a success and written to the output — not counted as a transform
failure. -/
theorem string_fields_yield_error_marker (s1 s2 c : String) (s : Stats) :
    calculate_analysis_result ⟨.str s1, .str s2, c⟩ = .str "ERROR" ∧
    processRecord s (.data ⟨.str s1, .str s2, c⟩) =
      ⟨s.incRecords.incSuccess, none, some (.str "ERROR")⟩ := by
  have h : calculate_analysis_result ⟨.str s1, .str s2, c⟩ = .str "ERROR" := by
    unfold calculate_analysis_result calcExpr
    split_ifs <;> simp [pyMulFloat, pyMulInt, pyAdd, pyDivInt, pyRound2]
  exact ⟨h, by simp [processRecord, recordBody, h]⟩

end DataBatch
